import Mathlib

/-!
# Verification of `src/server.js` (storefront review backend)

Shallow embedding of the Express backend in `src/server.js`.  Pure
computations (the recency scorer `getTimeScore`, defaulting of request
bodies, the sort dispatch of `GET /api/comments`) are translated to Lean
functions; each stateful HTTP handler is modelled as a function from the
request data and the current stored JSON documents to its response
envelope together with the stored documents and file deletions it
produces.  JavaScript numbers that the program actually manipulates are
integers (ratings, indices, scores) except the profile rating, which is
modelled as a rational; `parseInt` is modelled including its radix-16
`0x` prefix rule and NaN as `Option.none`.
-/

namespace Server

/-- JavaScript whitespace accepted by `parseInt` before the number. -/
def jsIsSpace (c : Char) : Bool :=
  c = ' ' || c = '\t' || c = '\n' || c = '\r' || c = '\x0b' || c = '\x0c'

/-- Value of a decimal digit character. -/
def decDigitVal (c : Char) : Nat := c.toNat - 48

/-- Is `c` a hexadecimal digit? -/
def isHexDigit (c : Char) : Bool :=
  c.isDigit || ('a' ≤ c && c ≤ 'f') || ('A' ≤ c && c ≤ 'F')

/-- Value of a hexadecimal digit character. -/
def hexDigitVal (c : Char) : Nat :=
  if c.isDigit then c.toNat - 48
  else if 'a' ≤ c && c ≤ 'f' then c.toNat - 87
  else c.toNat - 55

/-- Accumulate a digit list into a number, most significant first. -/
def digitsVal (base : Nat) (val : Char → Nat) (ds : List Char) : Nat :=
  ds.foldl (fun acc c => acc * base + val c) 0

/-- JavaScript `parseInt(s)` (radix unspecified): skip leading whitespace,
optional sign, then either a `0x`/`0X` hexadecimal literal or a maximal
decimal-digit prefix; `none` models `NaN` (no digits found). -/
def jsParseInt (s : String) : Option Int :=
  let cs := s.data.dropWhile jsIsSpace
  let signRest : Int × List Char :=
    match cs with
    | '-' :: r => (-1, r)
    | '+' :: r => (1, r)
    | _ => (1, cs)
  match signRest.2 with
  | '0' :: 'x' :: r =>
    let hs := r.takeWhile isHexDigit
    if hs.isEmpty then none
    else some (signRest.1 * (digitsVal 16 hexDigitVal hs : Int))
  | '0' :: 'X' :: r =>
    let hs := r.takeWhile isHexDigit
    if hs.isEmpty then none
    else some (signRest.1 * (digitsVal 16 hexDigitVal hs : Int))
  | rest =>
    let ds := rest.takeWhile Char.isDigit
    if ds.isEmpty then none
    else some (signRest.1 * (digitsVal 10 decDigitVal ds : Int))

/-- JavaScript `v || d` where `v` is a possibly-`undefined` string:
`undefined` and the empty string are falsy. -/
def jsOrStr (v : Option String) (d : String) : String :=
  match v with
  | some s => if s = "" then d else s
  | none => d

/-- JavaScript `v || d` where `v` is a possibly-`NaN` number
(`none` models `NaN`): `NaN` and `0` are falsy. -/
def jsOrInt (v : Option Int) (d : Int) : Int :=
  match v with
  | some n => if n = 0 then d else n
  | none => d

/-- JavaScript `v || d` where `v` is a possibly-`undefined` boolean. -/
def jsOrBool (v : Option Bool) (d : Bool) : Bool :=
  match v with
  | some b => b || d
  | none => d

/-- Truthiness of a possibly-`undefined` string. -/
def jsTruthyStr (v : Option String) : Bool :=
  match v with
  | some s => !(s = "")
  | none => false

/-- JavaScript `x < c` where `x` is a possibly-`NaN` number: every
comparison against `NaN` is false. -/
def jsNumLt (v : Option Int) (c : Int) : Bool :=
  match v with
  | some n => n < c
  | none => false

/-- JavaScript `x >= c` where `x` is a possibly-`NaN` number: every
comparison against `NaN` is false. -/
def jsNumGe (v : Option Int) (c : Int) : Bool :=
  match v with
  | some n => c ≤ n
  | none => false

/-- JavaScript `s.includes(c)` for a single character `c`. -/
def strContains (s : String) (c : Char) : Bool :=
  s.data.any (fun x => x = c)

/-- `getTimeScore` from `src/server.js`: recency score of a free-form
time string.  The source line `return parseInt(timeStr) || 0 + 100`
groups, by JavaScript operator precedence, as
`parseInt(timeStr) || (0 + 100)`, which `jsOrInt` captures. -/
def getTimeScore (timeStr : String) : Int :=
  if timeStr = "" then 0
  else if strContains timeStr '周' then jsOrInt (jsParseInt timeStr) (0 + 100)
  else if strContains timeStr '月' then jsOrInt (jsParseInt timeStr) (0 + 50)
  else if strContains timeStr '年' then jsOrInt (jsParseInt timeStr) 0
  else 0

/-- A stored review record, with the fields `src/server.js` writes to
`data/comments.json`. -/
structure Review where
  name : String
  userAvatar : String
  label : String
  reviewCount : String
  photoCount : String
  rating : Int
  time : String
  content : String
  reviewImages : List String
  isUserAdd : Bool
  likeCount : Int
  isLiked : Bool
deriving Repr, DecidableEq

/-- JSON body of `POST /api/comments`: every field may be absent.
String-valued JSON inputs are modelled as `Option String` (the `rating`
field is fed to `parseInt`, which stringifies its argument, so a numeric
rating `n` is represented by its decimal string). -/
structure CommentBody where
  name : Option String := none
  userAvatar : Option String := none
  label : Option String := none
  reviewCount : Option String := none
  photoCount : Option String := none
  rating : Option String := none
  time : Option String := none
  content : Option String := none
  reviewImages : Option (List String) := none
  isUserAdd : Option Bool := none
  likeCount : Option Int := none
  isLiked : Option Bool := none
deriving Repr, DecidableEq

/-- The `commentToAdd` object built by the `POST /api/comments` handler. -/
def mkCommentToAdd (b : CommentBody) : Review :=
  { name := jsOrStr b.name "Guest"
    userAvatar := jsOrStr b.userAvatar ""
    label := jsOrStr b.label ""
    reviewCount := jsOrStr b.reviewCount "0 reviews"
    photoCount := jsOrStr b.photoCount "0 photos"
    rating := jsOrInt (b.rating.bind jsParseInt) 5
    time := jsOrStr b.time "Just now"
    content := b.content.getD ""
    reviewImages := b.reviewImages.getD []
    isUserAdd := jsOrBool b.isUserAdd true
    likeCount := 0
    isLiked := false }

/-- Outcome of the `POST /api/comments` handler: a `400` envelope, or a
`200` envelope carrying the constructed review, together with the new
stored list. -/
inductive PostCommentsResult where
  | badRequest
  | ok (added : Review) (stored : List Review)
deriving Repr, DecidableEq

/-- The `POST /api/comments` handler: reject when `content` or `rating`
is falsy, otherwise `unshift` the constructed review onto the stored
list. -/
def postComments (b : CommentBody) (stored : List Review) : PostCommentsResult :=
  if !jsTruthyStr b.content || !jsTruthyStr b.rating then .badRequest
  else
    let c := mkCommentToAdd b
    .ok c (c :: stored)

/-- The `PUT /api/comments` handler: a non-array body (`none`) is
rejected with a `400` envelope and leaves the store unchanged; an array
body replaces the stored list.  Returns the stored list after the call
and the envelope code. -/
def putComments (body : Option (List Review)) (stored : List Review) :
    List Review × Nat :=
  match body with
  | none => (stored, 400)
  | some arr => (arr, 200)

/-- Node's `Array.prototype.sort` with a consistent numeric comparator
`cmp`: a stable sort placing `a` before `b` when `cmp a b ≤ 0`. -/
def jsSort (cmp : α → α → Int) (l : List α) : List α :=
  l.insertionSort (fun a b => cmp a b ≤ 0)

/-- The comparator of the `time/newest` case of `GET /api/comments`. -/
def byTimeDesc (a b : Review) : Int := getTimeScore b.time - getTimeScore a.time

/-- The comparator of the `rating/desc` case of `GET /api/comments`. -/
def byRatingDesc (a b : Review) : Int := b.rating - a.rating

/-- The comparator of the `rating/asc` case of `GET /api/comments`. -/
def byRatingAsc (a b : Review) : Int := a.rating - b.rating

/-- The `GET /api/comments` handler: read the stored list (`sortQuery`
is the raw `sort` query parameter, absent or a string) and dispatch on
`req.query.sort || ''`. -/
def getComments (stored : List Review) (sortQuery : Option String) :
    List Review :=
  let sortType := jsOrStr sortQuery ""
  if sortType = "time/newest" then jsSort byTimeDesc stored
  else if sortType = "rating/desc" then jsSort byRatingDesc stored
  else if sortType = "rating/asc" then jsSort byRatingAsc stored
  else stored

/-- The files the `DELETE /api/comments/:index` handler attempts to
delete for the removed record: each entry of its `reviewImages` array,
then its `userAvatar` when truthy (non-empty). -/
def reviewFiles (r : Review) : List String :=
  r.reviewImages ++ (if r.userAvatar = "" then [] else [r.userAvatar])

/-- Observable effect of one `DELETE /api/comments/:index` call.
`code` is the JSON envelope's code, `none` when no envelope was sent
because the handler threw; `filesDeleted` lists the paths whose deletion
was attempted; `stored` is the stored list after the call; `threw`
records whether the handler threw a `TypeError` (reading a property of
`undefined`), which Express turns into its default error response. -/
structure DeleteEffect where
  code : Option Nat
  filesDeleted : List String
  stored : List Review
  threw : Bool
deriving Repr, DecidableEq

/-- The `DELETE /api/comments/:index` handler.  `parseInt` of the route
parameter may be `NaN` (`none`), and both range comparisons are then
false, so the handler falls through to `comments[index]`, which is
`undefined`, and `commentToDelete.reviewImages` throws before any file
deletion or write. -/
def deleteComment (idxStr : String) (comments : List Review) : DeleteEffect :=
  let idx := jsParseInt idxStr
  if jsNumLt idx 0 || jsNumGe idx comments.length then
    { code := some 400, filesDeleted := [], stored := comments, threw := false }
  else
    match idx with
    | none =>
      { code := none, filesDeleted := [], stored := comments, threw := true }
    | some n =>
      match comments.get? n.toNat with
      | none =>
        { code := none, filesDeleted := [], stored := comments, threw := true }
      | some r =>
        { code := some 200, filesDeleted := reviewFiles r
          stored := comments.eraseIdx n.toNat, threw := false }

/-- The stored restaurant profile, with the fields `src/server.js`
writes to `data/restaurant.json` (`finalConfig`).  The rating is a
JavaScript number, modelled as a rational. -/
structure Profile where
  name : String
  rating : ℚ
  addr : String
  phone : String
  realUrl : String
  type : String
  status : String
  intro : String
  icon : String
  images : List String
deriving Repr, DecidableEq

/-- JSON body of `POST /api/restaurant`: every field may be absent.
The `rating` field is modelled as a JSON number (for a number `q`,
`parseFloat(q)` is `q` and never NaN); `images` and `deletedImages` are
present only when they are arrays (`Array.isArray` guards both). -/
structure ProfileBody where
  name : Option String := none
  rating : Option ℚ := none
  addr : Option String := none
  phone : Option String := none
  realUrl : Option String := none
  type : Option String := none
  status : Option String := none
  intro : Option String := none
  icon : Option String := none
  images : Option (List String) := none
  deletedImages : Option (List String) := none
deriving Repr, DecidableEq

/-- The `finalConfig` object built by the `POST /api/restaurant`
handler, after the `deletedImages` field has been stripped. -/
def finalConfig (b : ProfileBody) : Profile :=
  { name := jsOrStr b.name "The Wine Shop"
    rating := b.rating.getD (23 / 5)
    addr := jsOrStr b.addr "Bruckenstr. 35, 60364 Frankfurt am Main"
    phone := jsOrStr b.phone "+089 661 2744"
    realUrl := jsOrStr b.realUrl "https://maps.google.com/"
    type := jsOrStr b.type "Wine Shop"
    status := jsOrStr b.status "Closed"
    intro := jsOrStr b.intro "No introduction available"
    icon := jsOrStr b.icon ""
    images := b.images.getD [] }

/-- The `POST /api/restaurant` handler: delete the files listed in
`deletedImages` (when it is an array), strip that field, fill defaults
and persist.  Returns the persisted profile and the paths whose deletion
was attempted. -/
def postRestaurant (b : ProfileBody) : Profile × List String :=
  (finalConfig b, b.deletedImages.getD [])

/-- The `GET /api/restaurant` handler: return the stored profile. -/
def getRestaurant (stored : Profile) : Profile := stored

/-- ASCII lowering of one character (`String.prototype.toLowerCase` on
the ASCII range, which covers file extensions). -/
def asciiLower (c : Char) : Char :=
  if 'A' ≤ c && c ≤ 'Z' then Char.ofNat (c.toNat + 32) else c

/-- Node's `path.extname(name).toLowerCase()`: the substring of the
basename from its last dot, empty when there is no dot or the only dot
leads the basename, then lowercased. -/
def extnameLower (name : String) : String :=
  let baseRev := name.data.reverse.takeWhile (fun c => !(c = '/'))
  let afterDotRev := baseRev.takeWhile (fun c => !(c = '.'))
  if afterDotRev.length = baseRev.length then ""
  else if afterDotRev.length + 1 = baseRev.length then ""
  else String.mk ('.' :: (afterDotRev.reverse.map asciiLower))

/-- The `allowedExts` list of the `fileFilter` in `src/server.js`. -/
def allowedExts : List String := [".jpg", ".jpeg", ".png", ".gif", ".webp"]

/-- The `fileFilter` decision: accept exactly the files whose
lowercased extension is in `allowedExts`; otherwise the filter passes a
fresh `Error` to its callback. -/
def fileFilterAccepts (originalname : String) : Bool :=
  allowedExts.contains (extnameLower originalname)

/-- Observable outcome of one upload request.  `httpStatus` is the
transport status; `envelopeCode` is the `code` of the handler's JSON
envelope when the handler ran (`none` when the multer middleware errored
first and Express's default error handler answered instead); and
`filesWritten` lists the files left on disk. -/
structure UploadOutcome where
  httpStatus : Nat
  envelopeCode : Option Nat
  filesWritten : List String
deriving Repr, DecidableEq

/-- A single-file upload endpoint (`POST /api/upload/icon` and
`POST /api/upload/avatar`): `file?` is the original name of the file
sent under the expected field, `storedName` the generated disk name.
When `fileFilter` passes an `Error` to its callback, multer delegates
the error to Express, whose default error handler answers with status
500 (a plain `Error` carries no status) and no JSON envelope; the
handler's `try`/`catch` never runs and no file is written. -/
def uploadSingle (file? : Option String) (storedName : String) :
    UploadOutcome :=
  match file? with
  | none => { httpStatus := 200, envelopeCode := some 400, filesWritten := [] }
  | some name =>
    if fileFilterAccepts name then
      { httpStatus := 200, envelopeCode := some 200
        filesWritten := [storedName] }
    else
      { httpStatus := 500, envelopeCode := none, filesWritten := [] }

/-- A multi-file upload endpoint (`POST /api/upload/images` and
`POST /api/upload/review-images`): as `uploadSingle`, but any rejected
file aborts the request with the filter's `Error` (multer removes files
it had already stored for the request). -/
def uploadArray (files : List String) (storedNames : List String) :
    UploadOutcome :=
  if files.all fileFilterAccepts then
    if files.isEmpty then
      { httpStatus := 200, envelopeCode := some 400, filesWritten := [] }
    else
      { httpStatus := 200, envelopeCode := some 200
        filesWritten := storedNames }
  else
    { httpStatus := 500, envelopeCode := none, filesWritten := [] }

/-- The two seed reviews written to `data/comments.json` on first
start. -/
def seedReview1 : Review :=
  { name := "Link LL", userAvatar := "", label := "本地向导"
    reviewCount := "104条评价", photoCount := "405张照片", rating := 4
    time := "4周前", content := "食物 啤酒 OK"
    reviewImages :=
      ["https://via.placeholder.com/200/333333/ffffff?text=Food1",
       "https://via.placeholder.com/200/333333/ffffff?text=Food2",
       "https://via.placeholder.com/200/333333/ffffff?text=Food3",
       "https://via.placeholder.com/200/333333/ffffff?text=Beer"]
    isUserAdd := false, likeCount := 0, isLiked := false }

/-- Second seed review. -/
def seedReview2 : Review :=
  { name := "Lai Hao Sheng", userAvatar := "", label := ""
    reviewCount := "7条评价", photoCount := "1张照片", rating := 5
    time := "3年前", content := "非常nice 食物都很好吃 地方也很不错"
    reviewImages := ["https://via.placeholder.com/200/333333/ffffff?text=Shop"]
    isUserAdd := false, likeCount := 0, isLiked := false }

/-- The seed review list. -/
def seedComments : List Review := [seedReview1, seedReview2]

/-- The body used as counterexample input for the rating default. -/
def ratingZeroBody : CommentBody := { content := some "Great!", rating := some "0" }

/-- A body that explicitly sets `isUserAdd` to `false`. -/
def falseFlagBody : CommentBody :=
  { content := some "hi", rating := some "5", isUserAdd := some false }

/-- The round trip `POST /api/restaurant` then `GET /api/restaurant`. -/
def profileRoundTrip (b : ProfileBody) : Profile :=
  getRestaurant (postRestaurant b).1

/-- A sample `POST /api/restaurant` payload: supplies `name` and
`rating`, omits the other fields, and asks for one image deletion. -/
def sampleProfileBody : ProfileBody :=
  { name := some "My Shop", rating := some 5
    deletedImages := some ["uploads/images/old.png"] }

end Server

open Server

/-- C1: for the review sorter's recency scorer, a time string holding the
weeks unit whose numeric prefix parses to a nonzero `n` scores `n` (the
+100 bucket offset is not added), and scores `100` when the prefix fails
to parse or is `0`; analogously for the months unit (`50`) and the years
unit (`0`); a string with no recognized unit scores `0`. -/
theorem c1_getTimeScore_buckets (s : String) :
    (strContains s '周' = true →
      (∀ n : Int, jsParseInt s = some n → n ≠ 0 → getTimeScore s = n) ∧
      ((jsParseInt s = none ∨ jsParseInt s = some 0) → getTimeScore s = 100)) ∧
    (strContains s '周' = false → strContains s '月' = true →
      (∀ n : Int, jsParseInt s = some n → n ≠ 0 → getTimeScore s = n) ∧
      ((jsParseInt s = none ∨ jsParseInt s = some 0) → getTimeScore s = 50)) ∧
    (strContains s '周' = false → strContains s '月' = false →
      strContains s '年' = true →
      (∀ n : Int, jsParseInt s = some n → n ≠ 0 → getTimeScore s = n) ∧
      ((jsParseInt s = none ∨ jsParseInt s = some 0) → getTimeScore s = 0)) ∧
    (strContains s '周' = false → strContains s '月' = false →
      strContains s '年' = false → getTimeScore s = 0) := by
  have hne : ∀ c : Char, strContains s c = true → ¬s = "" := by
    intro c hc h
    subst h
    simp [strContains] at hc
  refine ⟨fun hw => ?_, fun hw hm => ?_, fun hw hm hy => ?_, fun hw hm hy => ?_⟩
  · refine ⟨fun n hn hnz => ?_, fun h => ?_⟩
    · simp [getTimeScore, hne _ hw, hw, jsOrInt, hn, hnz]
    · rcases h with h | h <;> simp [getTimeScore, hne _ hw, hw, jsOrInt, h]
  · refine ⟨fun n hn hnz => ?_, fun h => ?_⟩
    · simp [getTimeScore, hne _ hm, hw, hm, jsOrInt, hn, hnz]
    · rcases h with h | h <;> simp [getTimeScore, hne _ hm, hw, hm, jsOrInt, h]
  · refine ⟨fun n hn hnz => ?_, fun h => ?_⟩
    · simp [getTimeScore, hne _ hy, hw, hm, hy, jsOrInt, hn, hnz]
    · rcases h with h | h <;> simp [getTimeScore, hne _ hy, hw, hm, hy, jsOrInt, h]
  · by_cases h : s = ""
    · simp [getTimeScore, h]
    · simp [getTimeScore, h, hw, hm, hy]

/-- Witness for C1 at concrete inputs: "4周前" parses to 4 and scores 4;
"几周前" has an unparsable prefix and scores 100. -/
theorem c1_getTimeScore_buckets_witness :
    getTimeScore "4周前" = 4 ∧ getTimeScore "几周前" = 100 :=
  ⟨((c1_getTimeScore_buckets "4周前").1 (by decide)).1 4 (by decide) (by decide),
   ((c1_getTimeScore_buckets "几周前").1 (by decide)).2 (Or.inl (by decide))⟩

/-- C4: `PUT /api/comments` with an array body followed by
`GET /api/comments` with an absent or empty `sort` parameter returns
exactly the submitted list in the submitted order. -/
theorem c4_put_get_roundtrip (l stored : List Review) :
    getComments (putComments (some l) stored).1 none = l ∧
    getComments (putComments (some l) stored).1 (some "") = l := by
  constructor <;> rfl

/-- C5: a parsed index that is negative or at least the stored list's
length makes `DELETE /api/comments/:index` answer with the code-400
envelope, attempt no file deletion, and leave the stored list
unchanged. -/
theorem c5_delete_out_of_range (s : String) (l : List Review) (n : Int)
    (hs : jsParseInt s = some n) (h : n < 0 ∨ (l.length : Int) ≤ n) :
    deleteComment s l =
      { code := some 400, filesDeleted := [], stored := l, threw := false } := by
  rcases h with h | h <;>
    simp [deleteComment, hs, jsNumLt, jsNumGe, h]

/-- Witness for C5: deleting index `-1` from the seed list. -/
theorem c5_delete_out_of_range_witness :
    deleteComment "-1" seedComments =
      { code := some 400, filesDeleted := [], stored := seedComments
        threw := false } :=
  c5_delete_out_of_range "-1" seedComments (-1) (by decide) (Or.inl (by decide))

/-- C9: every review accepted by `POST /api/comments` is persisted with
`isUserAdd = true`, because `newComment.isUserAdd || true` can never
evaluate to `false`, even when the body supplies `isUserAdd: false`. -/
theorem c9_isUserAdd_always_true (b : CommentBody) (c : Review)
    (rest stored : List Review) (h : postComments b stored = .ok c rest) :
    c.isUserAdd = true := by
  unfold postComments at h
  split at h
  · cases h
  · cases h
    cases hb : b.isUserAdd <;>
      simp [mkCommentToAdd, jsOrBool, hb]

/-- Witness for C9: a body that explicitly sends `isUserAdd: false`
still yields a review with `isUserAdd = true`. -/
theorem c9_isUserAdd_always_true_witness :
    (mkCommentToAdd falseFlagBody).isUserAdd = true :=
  c9_isUserAdd_always_true falseFlagBody (mkCommentToAdd falseFlagBody)
    [mkCommentToAdd falseFlagBody] [] rfl

/-- C10: when the `:index` route parameter does not parse
(`parseInt` yields NaN), both range comparisons are false, so on a
non-empty list the handler passes the 400 branch and throws reading
`comments[NaN].reviewImages` of `undefined`: no envelope, no file
deletion, stored list untouched. -/
theorem c10_delete_nan_throws (s : String) (l : List Review)
    (hs : jsParseInt s = none) (_hl : l ≠ []) :
    deleteComment s l =
      { code := none, filesDeleted := [], stored := l, threw := true } := by
  simp [deleteComment, hs, jsNumLt, jsNumGe]

/-- Witness for C10: `DELETE /api/comments/abc` on the seed list. -/
theorem c10_delete_nan_throws_witness :
    deleteComment "abc" seedComments =
      { code := none, filesDeleted := [], stored := seedComments
        threw := true } :=
  c10_delete_nan_throws "abc" seedComments (by decide) (by decide)

/-- Counterexample to C2 as stated: the body
`{content: "Great!", rating: "0"}` has a rating whose `parseInt` is the
number `0` (it is parsable), yet the constructed review's rating is `5`,
because `parseInt(newComment.rating) || 5` treats `0` as falsy. -/
theorem c2_rating_zero_counterexample :
    jsParseInt "0" = some 0 ∧
    postComments ratingZeroBody [] =
      .ok (mkCommentToAdd ratingZeroBody) [mkCommentToAdd ratingZeroBody] ∧
    (mkCommentToAdd ratingZeroBody).rating = 5 ∧
    (mkCommentToAdd ratingZeroBody).rating ≠ 0 := by
  refine ⟨rfl, rfl, rfl, by decide⟩

/-- C2 (amended): for every body with truthy `content` and `rating`,
`POST /api/comments` prepends the constructed review to the stored
list; the review defaults `name` to "Guest", `label` to `""`, the count
strings to "0 reviews"/"0 photos" and `time` to "Just now" when those
fields are omitted; its rating is `parseInt` of the input rating when
that parses to a nonzero number and `5` when the parse fails or yields
`0`; and `likeCount`/`isLiked` are `0`/`false` regardless of the input
values of those fields. -/
theorem c2_post_comments_defaults (b : CommentBody) (stored : List Review)
    (hc : jsTruthyStr b.content = true) (hr : jsTruthyStr b.rating = true) :
    postComments b stored =
      .ok (mkCommentToAdd b) (mkCommentToAdd b :: stored) ∧
    (b.name = none → (mkCommentToAdd b).name = "Guest") ∧
    (b.label = none → (mkCommentToAdd b).label = "") ∧
    (b.reviewCount = none → (mkCommentToAdd b).reviewCount = "0 reviews") ∧
    (b.photoCount = none → (mkCommentToAdd b).photoCount = "0 photos") ∧
    (∀ r, b.rating = some r →
      (∀ n : Int, jsParseInt r = some n → n ≠ 0 →
        (mkCommentToAdd b).rating = n) ∧
      ((jsParseInt r = none ∨ jsParseInt r = some 0) →
        (mkCommentToAdd b).rating = 5)) ∧
    (b.time = none → (mkCommentToAdd b).time = "Just now") ∧
    (mkCommentToAdd b).likeCount = 0 ∧
    (mkCommentToAdd b).isLiked = false := by
  refine ⟨?_, ?_, ?_, ?_, ?_, ?_, ?_, rfl, rfl⟩
  · simp [postComments, hc, hr]
  · intro h; simp [mkCommentToAdd, jsOrStr, h]
  · intro h; simp [mkCommentToAdd, jsOrStr, h]
  · intro h; simp [mkCommentToAdd, jsOrStr, h]
  · intro h; simp [mkCommentToAdd, jsOrStr, h]
  · intro r hrat
    refine ⟨fun n hn hnz => ?_, fun h => ?_⟩
    · simp [mkCommentToAdd, jsOrInt, hrat, hn, hnz]
    · rcases h with h | h <;> simp [mkCommentToAdd, jsOrInt, hrat, h]
  · intro h; simp [mkCommentToAdd, jsOrStr, h]

/-- Witness for C2 (amended): the spec's concrete scenario, body
`{content: "Great!", rating: "5"}` on the seed list. -/
theorem c2_post_comments_defaults_witness :
    (mkCommentToAdd { content := some "Great!", rating := some "5" }).name =
      "Guest" ∧
    (mkCommentToAdd { content := some "Great!", rating := some "5" }).rating =
      5 ∧
    (mkCommentToAdd { content := some "Great!", rating := some "5" }).likeCount
      = 0 ∧
    postComments { content := some "Great!", rating := some "5" } seedComments
      = .ok (mkCommentToAdd { content := some "Great!", rating := some "5" })
        (mkCommentToAdd { content := some "Great!", rating := some "5" }
          :: seedComments) := by
  obtain ⟨h1, h2, _, _, _, h6, _, h8, _⟩ :=
    c2_post_comments_defaults { content := some "Great!", rating := some "5" }
      seedComments (by decide) (by decide)
  exact ⟨h2 rfl, (h6 "5" rfl).1 5 (by decide) (by decide), h8, h1⟩

/-- C3: for a valid index `n`, `DELETE /api/comments/:index` answers
with the code-200 envelope, attempts deletion of exactly the files in
the removed record's `reviewImages` array plus its `userAvatar` when
non-empty, and stores the list with exactly position `n` removed: the
records before `n` keep their places and the records after `n` shift
down by one (`take n ++ drop (n+1)`). -/
theorem c3_delete_valid_index (l : List Review) (n : Nat) (r : Review)
    (s : String) (hs : jsParseInt s = some (n : Int))
    (hr : l.get? n = some r) :
    deleteComment s l =
      { code := some 200, filesDeleted := reviewFiles r
        stored := l.take n ++ l.drop (n + 1), threw := false } := by
  have hn : n < l.length := by
    by_contra h
    rw [List.get?_eq_none.mpr (Nat.le_of_not_lt h)] at hr
    cases hr
  have h1 : jsNumLt (some (n : Int)) 0 = false := by
    simp [jsNumLt]
  have h2 : jsNumGe (some (n : Int)) l.length = false := by
    simp [jsNumGe]
    exact_mod_cast hn
  rw [List.get?_eq_getElem?] at hr
  simp [deleteComment, hs, h1, h2, Int.toNat_natCast, hr,
    List.eraseIdx_eq_take_drop_succ]

/-- Witness for C3: deleting index 0 of the seed list removes the first
seed review, attempts deletion of its four image URLs, and promotes the
previous index-1 record to index 0. -/
theorem c3_delete_valid_index_witness :
    deleteComment "0" seedComments =
      { code := some 200, filesDeleted := reviewFiles seedReview1
        stored := [seedReview2], threw := false } :=
  c3_delete_valid_index seedComments 0 seedReview1 "0" (by decide) rfl

/-- C6: `POST /api/restaurant` followed by `GET /api/restaurant`, for a
valid payload (supplied string fields non-empty, rating a number,
`images` an array when present), returns a profile where every supplied
field has the supplied value and every omitted field equals its fixed
default; the persisted profile is independent of the `deletedImages`
field, which is stripped before persisting. -/
theorem c6_profile_roundtrip (b : ProfileBody)
    (h1 : b.name ≠ some "") (h2 : b.addr ≠ some "")
    (h3 : b.phone ≠ some "") (h4 : b.realUrl ≠ some "")
    (h5 : b.type ≠ some "") (h6 : b.status ≠ some "")
    (h7 : b.intro ≠ some "") :
    (∀ v, b.name = some v → (profileRoundTrip b).name = v) ∧
    (b.name = none → (profileRoundTrip b).name = "The Wine Shop") ∧
    (∀ v, b.rating = some v → (profileRoundTrip b).rating = v) ∧
    (b.rating = none → (profileRoundTrip b).rating = 23 / 5) ∧
    (∀ v, b.addr = some v → (profileRoundTrip b).addr = v) ∧
    (b.addr = none →
      (profileRoundTrip b).addr = "Bruckenstr. 35, 60364 Frankfurt am Main") ∧
    (∀ v, b.phone = some v → (profileRoundTrip b).phone = v) ∧
    (b.phone = none → (profileRoundTrip b).phone = "+089 661 2744") ∧
    (∀ v, b.realUrl = some v → (profileRoundTrip b).realUrl = v) ∧
    (b.realUrl = none →
      (profileRoundTrip b).realUrl = "https://maps.google.com/") ∧
    (∀ v, b.type = some v → (profileRoundTrip b).type = v) ∧
    (b.type = none → (profileRoundTrip b).type = "Wine Shop") ∧
    (∀ v, b.status = some v → (profileRoundTrip b).status = v) ∧
    (b.status = none → (profileRoundTrip b).status = "Closed") ∧
    (∀ v, b.intro = some v → (profileRoundTrip b).intro = v) ∧
    (b.intro = none →
      (profileRoundTrip b).intro = "No introduction available") ∧
    (∀ v, b.icon = some v → v ≠ "" → (profileRoundTrip b).icon = v) ∧
    (b.icon = none → (profileRoundTrip b).icon = "") ∧
    (∀ v, b.images = some v → (profileRoundTrip b).images = v) ∧
    (b.images = none → (profileRoundTrip b).images = []) ∧
    profileRoundTrip b = profileRoundTrip { b with deletedImages := none } := by
  have hs : ∀ (v : Option String) (x d : String), v = some x → v ≠ some "" →
      jsOrStr v d = x := by
    intro v x d hx hne
    subst hx
    have : x ≠ "" := by
      intro h
      exact hne (by rw [h])
    simp [jsOrStr, this]
  refine ⟨fun v hv => hs _ _ _ hv h1, fun hv => by simp [profileRoundTrip,
      getRestaurant, postRestaurant, finalConfig, jsOrStr, hv],
    fun v hv => by simp [profileRoundTrip, getRestaurant, postRestaurant,
      finalConfig, hv],
    fun hv => by simp [profileRoundTrip, getRestaurant, postRestaurant,
      finalConfig, hv],
    fun v hv => hs _ _ _ hv h2, fun hv => by simp [profileRoundTrip,
      getRestaurant, postRestaurant, finalConfig, jsOrStr, hv],
    fun v hv => hs _ _ _ hv h3, fun hv => by simp [profileRoundTrip,
      getRestaurant, postRestaurant, finalConfig, jsOrStr, hv],
    fun v hv => hs _ _ _ hv h4, fun hv => by simp [profileRoundTrip,
      getRestaurant, postRestaurant, finalConfig, jsOrStr, hv],
    fun v hv => hs _ _ _ hv h5, fun hv => by simp [profileRoundTrip,
      getRestaurant, postRestaurant, finalConfig, jsOrStr, hv],
    fun v hv => hs _ _ _ hv h6, fun hv => by simp [profileRoundTrip,
      getRestaurant, postRestaurant, finalConfig, jsOrStr, hv],
    fun v hv => hs _ _ _ hv h7, fun hv => by simp [profileRoundTrip,
      getRestaurant, postRestaurant, finalConfig, jsOrStr, hv],
    fun v hv hvne => by simp [profileRoundTrip, getRestaurant,
      postRestaurant, finalConfig, jsOrStr, hv, hvne],
    fun hv => by simp [profileRoundTrip, getRestaurant, postRestaurant,
      finalConfig, jsOrStr, hv],
    fun v hv => by simp [profileRoundTrip, getRestaurant, postRestaurant,
      finalConfig, hv],
    fun hv => by simp [profileRoundTrip, getRestaurant, postRestaurant,
      finalConfig, hv],
    rfl⟩

/-- Witness for C6: a payload supplying `name` and `rating`, omitting
the rest, with a `deletedImages` field to strip. -/
theorem c6_profile_roundtrip_witness :
    (profileRoundTrip sampleProfileBody).name = "My Shop" ∧
    (profileRoundTrip sampleProfileBody).rating = 5 ∧
    (profileRoundTrip sampleProfileBody).intro =
      "No introduction available" ∧
    (profileRoundTrip sampleProfileBody).addr =
      "Bruckenstr. 35, 60364 Frankfurt am Main" := by
  obtain ⟨n1, -, r1, -, -, a2, -, -, -, -, -, -, -, -, -, i2, -⟩ :=
    c6_profile_roundtrip sampleProfileBody
      (by decide) (by decide) (by decide) (by decide) (by decide) (by decide)
      (by decide)
  exact ⟨n1 "My Shop" rfl, r1 5 rfl, i2 rfl, a2 rfl⟩

/-- C7: on a stored list with pairwise-distinct ratings,
`GET /api/comments?sort=rating/desc` returns exactly the reverse of
`GET /api/comments?sort=rating/asc`. -/
theorem c7_rating_desc_reverse_asc (l : List Review)
    (hd : l.Pairwise (fun a b => a.rating ≠ b.rating)) :
    getComments l (some "rating/desc") =
      (getComments l (some "rating/asc")).reverse := by
  have hdesc : getComments l (some "rating/desc") =
      l.insertionSort (fun a b => byRatingDesc a b ≤ 0) := rfl
  have hasc : getComments l (some "rating/asc") =
      l.insertionSort (fun a b => byRatingAsc a b ≤ 0) := rfl
  rw [hdesc, hasc]
  haveI : IsTotal Review (fun a b => byRatingDesc a b ≤ 0) :=
    ⟨fun a b => by simp only [byRatingDesc]; omega⟩
  haveI : IsTrans Review (fun a b => byRatingDesc a b ≤ 0) :=
    ⟨fun a b c hab hbc => by
      simp only [byRatingDesc] at hab hbc ⊢; omega⟩
  haveI : IsTotal Review (fun a b => byRatingAsc a b ≤ 0) :=
    ⟨fun a b => by simp only [byRatingAsc]; omega⟩
  haveI : IsTrans Review (fun a b => byRatingAsc a b ≤ 0) :=
    ⟨fun a b c hab hbc => by
      simp only [byRatingAsc] at hab hbc ⊢; omega⟩
  have sAsc := List.sorted_insertionSort (fun a b => byRatingAsc a b ≤ 0) l
  have sDesc := List.sorted_insertionSort (fun a b => byRatingDesc a b ≤ 0) l
  have pAsc := List.perm_insertionSort (fun a b => byRatingAsc a b ≤ 0) l
  have pDesc := List.perm_insertionSort (fun a b => byRatingDesc a b ≤ 0) l
  have dAsc : (l.insertionSort (fun a b => byRatingAsc a b ≤ 0)).Pairwise
      (fun a b => a.rating ≠ b.rating) :=
    (List.Perm.pairwise_iff (fun h => Ne.symm h) pAsc).mpr hd
  have dDesc : (l.insertionSort (fun a b => byRatingDesc a b ≤ 0)).Pairwise
      (fun a b => a.rating ≠ b.rating) :=
    (List.Perm.pairwise_iff (fun h => Ne.symm h) pDesc).mpr hd
  have strictAsc : (l.insertionSort (fun a b => byRatingAsc a b ≤ 0)).Pairwise
      (fun a b => a.rating < b.rating) :=
    List.Pairwise.imp₂
      (fun a b hle hne => by
        simp only [byRatingAsc] at hle; omega)
      sAsc dAsc
  have strictDesc : (l.insertionSort (fun a b => byRatingDesc a b ≤ 0)).Pairwise
      (fun a b => b.rating < a.rating) :=
    List.Pairwise.imp₂
      (fun a b hle hne => by
        simp only [byRatingDesc] at hle; omega)
      sDesc dDesc
  have strictRev : ((l.insertionSort
      (fun a b => byRatingDesc a b ≤ 0)).reverse).Pairwise
      (fun a b => a.rating < b.rating) :=
    List.pairwise_reverse.mpr strictDesc
  haveI : IsAntisymm Review (fun a b => a.rating < b.rating) :=
    ⟨fun a b h1 h2 => absurd (lt_trans h1 h2) (lt_irrefl _)⟩
  have pAD : (l.insertionSort (fun a b => byRatingAsc a b ≤ 0)).Perm
      ((l.insertionSort (fun a b => byRatingDesc a b ≤ 0)).reverse) :=
    pAsc.trans (pDesc.symm.trans (List.reverse_perm _).symm)
  have heq : l.insertionSort (fun a b => byRatingAsc a b ≤ 0) =
      (l.insertionSort (fun a b => byRatingDesc a b ≤ 0)).reverse :=
    List.eq_of_perm_of_sorted pAD strictAsc strictRev
  rw [heq, List.reverse_reverse]

/-- Witness for C7: the seed list has distinct ratings 4 and 5. -/
theorem c7_rating_desc_reverse_asc_witness :
    getComments seedComments (some "rating/desc") =
      (getComments seedComments (some "rating/asc")).reverse :=
  c7_rating_desc_reverse_asc seedComments (by decide)

/-- Counterexample to C8 as stated: uploading `photo.bmp` yields no JSON
envelope at all — the filter's `Error` goes to Express's default error
handler, which answers with transport status 500 — so no 400-class
envelope is produced (though indeed no file is written). -/
theorem c8_bmp_counterexample :
    uploadSingle (some "photo.bmp") "photo-123-abcd.bmp" =
      { httpStatus := 500, envelopeCode := none, filesWritten := [] } ∧
    ¬ ∃ c, (uploadSingle (some "photo.bmp") "photo-123-abcd.bmp").envelopeCode
        = some c ∧ 400 ≤ c ∧ c < 500 := by
  refine ⟨by decide, ?_⟩
  rintro ⟨c, hc, -, -⟩
  have h : (uploadSingle (some "photo.bmp") "photo-123-abcd.bmp").envelopeCode
      = none := by decide
  rw [h] at hc
  cases hc

/-- C8 (amended): every upload whose extension (case-insensitively) is
outside {.jpg, .jpeg, .png, .gif, .webp} is rejected with no file
written to disk, on single-file and multi-file endpoints alike; the
rejection surfaces as the framework's default 500 error response (the
filter error never reaches the handler), not as a 400-class JSON
envelope. -/
theorem c8_reject_unsupported_ext (name storedName : String)
    (pre post storedNames : List String)
    (h : fileFilterAccepts name = false) :
    uploadSingle (some name) storedName =
      { httpStatus := 500, envelopeCode := none, filesWritten := [] } ∧
    uploadArray (pre ++ name :: post) storedNames =
      { httpStatus := 500, envelopeCode := none, filesWritten := [] } := by
  constructor
  · simp [uploadSingle, h]
  · have hall : (pre ++ name :: post).all fileFilterAccepts = false := by
      simp [List.all_append, List.all_cons, h]
    simp [uploadArray, hall]

/-- Witness for C8 (amended): `photo.bmp` alone and in a batch after an
accepted `ok.jpg`. -/
theorem c8_reject_unsupported_ext_witness :
    uploadSingle (some "photo.bmp") "photo-9-zzzz.bmp" =
      { httpStatus := 500, envelopeCode := none, filesWritten := [] } ∧
    uploadArray (["ok.jpg"] ++ "photo.bmp" :: []) ["ok-9-zzzz.jpg"] =
      { httpStatus := 500, envelopeCode := none, filesWritten := [] } :=
  c8_reject_unsupported_ext "photo.bmp" "photo-9-zzzz.bmp" ["ok.jpg"] []
    ["ok-9-zzzz.jpg"] (by decide)
